import Mathlib

/-!
Shallow embedding of the CBZ cricket record service (`src/app.py`), a Flask
HTTP service over a SQLite store with two tables, `players` and `matches`.

Modelling decisions, all taken from the source:

* JSON/SQLite values are modelled by `JVal` (SQLite is dynamically typed and
  the handlers pass request values straight through to the store, so a single
  value universe suffices).  Python `None` and JSON `null` are both `JVal.null`.
* A request body is a record of `Option JVal` fields: `none` means the key is
  absent from the JSON object, `some v` means the key is present with value
  `v` (possibly `JVal.null`).  `data.get(k)` and `data.get(k, d)` become
  `pyGet` and `pyGetD`.
* The store is a pair of row lists plus the two `AUTOINCREMENT` counters of
  the schema created by `init_db` (`id INTEGER PRIMARY KEY AUTOINCREMENT`):
  a successful INSERT assigns the counter value and increments it, and the
  counter never decreases, which is SQLite's AUTOINCREMENT behaviour.
* `get_db_connection` runs plain `sqlite3.connect` and never issues
  `PRAGMA foreign_keys = ON`; with the Python sqlite3 driver foreign-key
  enforcement is OFF by default, so the `ON DELETE CASCADE` clause declared
  on `matches.player_id` is not enforced at runtime.  The embedding therefore
  models `DELETE FROM players` as touching only the `players` table.
* Each handler additionally takes a `fault : Option String` parameter: a
  fault `some e` means the handler's mutating SQL statement raises
  `sqlite3.Error` with message `e` (I/O failure, etc.).  Deterministic
  constraint violations (the `NOT NULL` constraint on `players.name`) are
  modelled directly.  A raised statement is rolled back, so the error paths
  return the original store.
* Each handler result also carries `opened`/`closed` counters: how many
  sqlite connections the handler opened (`get_db_connection()` calls) and how
  many it closed (`conn.close()` calls) during the request.
-/

namespace CBZ

/-- A JSON / SQLite value as passed through the handlers.  `real` models a
Python float / SQLite REAL (no arithmetic is ever performed on it, so an
exact rational carrier is adequate). -/
inductive JVal where
  | null : JVal
  | bool (b : Bool) : JVal
  | int (n : Int) : JVal
  | real (q : Rat) : JVal
  | str (s : String) : JVal
deriving Repr, DecidableEq

/-- Python truthiness, as used by `if not name` in `add_player`. -/
def truthy : JVal → Bool
  | .null => false
  | .bool b => b
  | .int n => n != 0
  | .real q => q != 0
  | .str s => s != ""

/-- `data.get(k)`: `None` (i.e. null) when the key is absent, else the raw
value. -/
def pyGet (o : Option JVal) : JVal := o.getD .null

/-- `data.get(k, d)`: the default `d` when the key is absent, else the raw
value (which may itself be null). -/
def pyGetD (o : Option JVal) (d : JVal) : JVal := o.getD d

/-- A row of the `players` table (schema of `init_db`). -/
structure PlayerRow where
  id : Nat
  name : JVal
  role : JVal
  batting_style : JVal
  bowling_style : JVal
deriving Repr, DecidableEq

/-- A row of the `matches` table (schema of `init_db`), columns in schema
order. -/
structure MatchRow where
  id : Nat
  player_id : Nat
  did_bat : JVal
  runs : JVal
  balls : JVal
  wickets : JVal
  overs : JVal
  conceded : JVal
  catches : JVal
  stumpings : JVal
  run_outs : JVal
deriving Repr, DecidableEq

/-- JSON body of a player create/update request. -/
structure PlayerBody where
  name : Option JVal
  role : Option JVal
  batting_style : Option JVal
  bowling_style : Option JVal
deriving Repr, DecidableEq

/-- JSON body of a match create/update request. -/
structure MatchBody where
  did_bat : Option JVal
  runs : Option JVal
  balls : Option JVal
  wickets : Option JVal
  overs : Option JVal
  conceded : Option JVal
  catches : Option JVal
  stumpings : Option JVal
  run_outs : Option JVal
deriving Repr, DecidableEq

/-- A match body with every key absent. -/
def emptyMatchBody : MatchBody := ⟨none, none, none, none, none, none, none, none, none⟩

/-- The SQLite database: the two tables plus the AUTOINCREMENT counters
maintained by the store for their `id` columns. -/
structure Store where
  players : List PlayerRow
  «matches» : List MatchRow
  nextPlayerId : Nat
  nextMatchId : Nat
deriving Repr, DecidableEq

/-- The fresh database created by `init_db`: both tables empty, AUTOINCREMENT
starting at 1. -/
def Store.init : Store := ⟨[], [], 1, 1⟩

/-- A response body as built by the handlers via `jsonify`. -/
inductive Body where
  | playerObj (p : PlayerRow) : Body
  | matchObj (m : MatchRow) : Body
  | msg (s : String) : Body
  | err (s : String) : Body
  | empty : Body
deriving Repr, DecidableEq

/-- Result of running one handler: the store afterwards, the HTTP status and
body the handler returned, and how many sqlite connections the handler
opened and closed along that path. -/
structure HResult where
  store : Store
  status : Nat
  body : Body
  opened : Nat
  closed : Nat
deriving Repr, DecidableEq

/-- The WSGI response finalisation performed by the web framework (werkzeug
`Response.get_app_iter`): a response whose status is 1xx, 204 or 304 is
emitted with an empty body on the wire, whatever payload the handler
supplied. -/
def wireBody (status : Nat) (b : Body) : Body :=
  if (100 ≤ status ∧ status < 200) ∨ status = 204 ∨ status = 304 then .empty else b

/-- `POST /players` (`add_player`).  Validates `name` truthiness, opens a
connection, INSERTs, then re-reads the new row over a second, never-closed
connection. -/
def add_player (s : Store) (data : PlayerBody) (fault : Option String) : HResult :=
  let name := pyGet data.name
  if truthy name then
    match fault with
    | some e => ⟨s, 500, .err e, 1, 1⟩
    | none =>
      let player_id := s.nextPlayerId
      let row : PlayerRow :=
        ⟨player_id, name, pyGet data.role, pyGet data.batting_style, pyGet data.bowling_style⟩
      let t : Store := { s with players := s.players ++ [row], nextPlayerId := player_id + 1 }
      -- `get_db_connection().execute("SELECT * FROM players WHERE id = ?")`:
      -- a second connection, opened for the re-read and never closed.
      let fetched := (t.players.find? (fun p => p.id == player_id)).getD row
      ⟨t, 201, .playerObj fetched, 2, 1⟩
  else
    ⟨s, 400, .err "Player name is required", 0, 0⟩

/-- The SET clause of `update_player`'s UPDATE statement applied to one row:
`SET name=?, role=?, batting_style=?, bowling_style=?` with the values bound
via `data.get(...)`. -/
def setPlayerFields (data : PlayerBody) (p : PlayerRow) : PlayerRow :=
  { p with name := pyGet data.name, role := pyGet data.role,
           batting_style := pyGet data.batting_style,
           bowling_style := pyGet data.bowling_style }

/-- The SET clause of `update_match`'s UPDATE statement applied to one row:
the nine stat columns, bound via `data.get(...)` with no defaults. -/
def setMatchFields (data : MatchBody) (m : MatchRow) : MatchRow :=
  { m with did_bat := pyGet data.did_bat, runs := pyGet data.runs,
           balls := pyGet data.balls, wickets := pyGet data.wickets,
           overs := pyGet data.overs, conceded := pyGet data.conceded,
           catches := pyGet data.catches, stumpings := pyGet data.stumpings,
           run_outs := pyGet data.run_outs }

/-- `PUT /players/<id>` (`update_player`).  Runs the UPDATE unconditionally;
the store raises on a NULL `name` for any updated row (NOT NULL constraint);
a zero rowcount yields 404 after the fact. -/
def update_player (s : Store) (pid : Nat) (data : PlayerBody) (fault : Option String) : HResult :=
  let newName := pyGet data.name
  let matched := s.players.any (fun p => p.id == pid)
  match fault with
  | some e => ⟨s, 500, .err e, 1, 1⟩
  | none =>
    if matched ∧ newName = .null then
      ⟨s, 500, .err "NOT NULL constraint failed: players.name", 1, 1⟩
    else
      let players' := s.players.map (fun p =>
        if p.id == pid then setPlayerFields data p else p)
      let t : Store := { s with players := players' }
      if matched then
        match t.players.find? (fun p => p.id == pid) with
        | some fetched => ⟨t, 200, .playerObj fetched, 1, 1⟩
        | none => ⟨t, 200, .empty, 1, 1⟩  -- unreachable: an updated row keeps its id
      else
        ⟨t, 404, .msg "Player not found", 1, 1⟩

/-- `DELETE /players/<id>` (`delete_player`).  Foreign keys are not enabled
on the connection, so the declared ON DELETE CASCADE is inert and only the
`players` table is touched. -/
def delete_player (s : Store) (pid : Nat) (fault : Option String) : HResult :=
  match fault with
  | some e => ⟨s, 500, .err e, 1, 1⟩
  | none =>
    let rowcount := s.players.countP (fun p => p.id == pid)
    let t : Store := { s with players := s.players.filter (fun p => p.id != pid) }
    if rowcount = 0 then
      ⟨t, 404, .msg "Player not found", 1, 1⟩
    else
      ⟨t, 204, .msg "Player deleted successfully", 1, 1⟩

/-- `POST /players/<id>/matches` (`add_match_for_player`).  Checks that the
player exists before the INSERT; on success re-reads the new row over a
second, never-closed connection. -/
def add_match_for_player (s : Store) (pid : Nat) (data : MatchBody) (fault : Option String) :
    HResult :=
  if s.players.any (fun p => p.id == pid) then
    match fault with
    | some e => ⟨s, 500, .err e, 1, 1⟩
    | none =>
      let match_id := s.nextMatchId
      let row : MatchRow :=
        ⟨match_id, pid,
         pyGetD data.did_bat (.bool false), pyGetD data.runs (.int 0),
         pyGetD data.balls (.int 0), pyGetD data.wickets (.int 0),
         pyGetD data.overs (.real 0), pyGetD data.conceded (.int 0),
         pyGetD data.catches (.int 0), pyGetD data.stumpings (.int 0),
         pyGetD data.run_outs (.int 0)⟩
      let t : Store := { s with «matches» := s.«matches» ++ [row], nextMatchId := match_id + 1 }
      let fetched := (t.«matches».find? (fun m => m.id == match_id)).getD row
      ⟨t, 201, .matchObj fetched, 2, 1⟩
  else
    ⟨s, 404, .msg "Player not found", 1, 1⟩

/-- `PUT /matches/<id>` (`update_match`).  Runs the UPDATE unconditionally:
the SET list covers the nine stat columns (never `id` or `player_id`), with
no defaulting — an absent key writes NULL.  Zero rowcount yields 404. -/
def update_match (s : Store) (mid : Nat) (data : MatchBody) (fault : Option String) : HResult :=
  match fault with
  | some e => ⟨s, 500, .err e, 1, 1⟩
  | none =>
    let matched := s.«matches».any (fun m => m.id == mid)
    let matches' := s.«matches».map (fun m =>
      if m.id == mid then setMatchFields data m else m)
    let t : Store := { s with «matches» := matches' }
    if matched then
      match t.«matches».find? (fun m => m.id == mid) with
      | some fetched => ⟨t, 200, .matchObj fetched, 1, 1⟩
      | none => ⟨t, 200, .empty, 1, 1⟩  -- unreachable: an updated row keeps its id
    else
      ⟨t, 404, .msg "Match not found", 1, 1⟩

/-- `DELETE /matches/<id>` (`delete_match`). -/
def delete_match (s : Store) (mid : Nat) (fault : Option String) : HResult :=
  match fault with
  | some e => ⟨s, 500, .err e, 1, 1⟩
  | none =>
    let rowcount := s.«matches».countP (fun m => m.id == mid)
    let t : Store := { s with «matches» := s.«matches».filter (fun m => m.id != mid) }
    if rowcount = 0 then
      ⟨t, 404, .msg "Match not found", 1, 1⟩
    else
      ⟨t, 204, .msg "Match deleted successfully", 1, 1⟩

/-- One mutating HTTP request, for reasoning about request sequences. -/
inductive Op where
  | addPlayer (data : PlayerBody) (fault : Option String) : Op
  | updatePlayer (pid : Nat) (data : PlayerBody) (fault : Option String) : Op
  | deletePlayer (pid : Nat) (fault : Option String) : Op
  | addMatch (pid : Nat) (data : MatchBody) (fault : Option String) : Op
  | updateMatch (mid : Nat) (data : MatchBody) (fault : Option String) : Op
  | deleteMatch (mid : Nat) (fault : Option String) : Op

/-- The store after serving one request. -/
def applyOp (s : Store) : Op → Store
  | .addPlayer data fault => (add_player s data fault).store
  | .updatePlayer pid data fault => (update_player s pid data fault).store
  | .deletePlayer pid fault => (delete_player s pid fault).store
  | .addMatch pid data fault => (add_match_for_player s pid data fault).store
  | .updateMatch mid data fault => (update_match s mid data fault).store
  | .deleteMatch mid fault => (delete_match s mid fault).store

/-- The player id handed out by the store while serving one request (sqlite
`lastrowid` of a successful player INSERT), if any. -/
def newPlayerIdOf (s : Store) : Op → List Nat
  | .addPlayer data fault =>
      if (add_player s data fault).status = 201 then [s.nextPlayerId] else []
  | _ => []

/-- The match id handed out by the store while serving one request, if any. -/
def newMatchIdOf (s : Store) : Op → List Nat
  | .addMatch pid data fault =>
      if (add_match_for_player s pid data fault).status = 201 then [s.nextMatchId] else []
  | _ => []

/-- The player ids handed out by the store, in request order, along a request
sequence. -/
def assignedPlayerIds (s : Store) : List Op → List Nat
  | [] => []
  | op :: ops => newPlayerIdOf s op ++ assignedPlayerIds (applyOp s op) ops

/-- The match ids handed out by the store, in request order, along a request
sequence. -/
def assignedMatchIds (s : Store) : List Op → List Nat
  | [] => []
  | op :: ops => newMatchIdOf s op ++ assignedMatchIds (applyOp s op) ops

/-! ### Helper lemmas -/

lemma update_player_nextIds (s : Store) (pid : Nat) (data : PlayerBody) (fault : Option String) :
    (update_player s pid data fault).store.nextPlayerId = s.nextPlayerId ∧
    (update_player s pid data fault).store.nextMatchId = s.nextMatchId := by
  cases fault <;> simp only [update_player] <;> repeat' split
  all_goals simp

lemma delete_player_nextIds (s : Store) (pid : Nat) (fault : Option String) :
    (delete_player s pid fault).store.nextPlayerId = s.nextPlayerId ∧
    (delete_player s pid fault).store.nextMatchId = s.nextMatchId := by
  cases fault <;> simp only [delete_player] <;> repeat' split
  all_goals simp

lemma update_match_nextIds (s : Store) (mid : Nat) (data : MatchBody) (fault : Option String) :
    (update_match s mid data fault).store.nextPlayerId = s.nextPlayerId ∧
    (update_match s mid data fault).store.nextMatchId = s.nextMatchId := by
  cases fault <;> simp only [update_match] <;> repeat' split
  all_goals simp

lemma delete_match_nextIds (s : Store) (mid : Nat) (fault : Option String) :
    (delete_match s mid fault).store.nextPlayerId = s.nextPlayerId ∧
    (delete_match s mid fault).store.nextMatchId = s.nextMatchId := by
  cases fault <;> simp only [delete_match] <;> repeat' split
  all_goals simp

lemma add_player_nextIds (s : Store) (data : PlayerBody) (fault : Option String) :
    ((add_player s data fault).store.nextPlayerId = s.nextPlayerId ∨
     (add_player s data fault).store.nextPlayerId = s.nextPlayerId + 1) ∧
    (add_player s data fault).store.nextMatchId = s.nextMatchId := by
  cases fault <;> simp only [add_player] <;> repeat' split
  all_goals simp

lemma add_player_201_next (s : Store) (data : PlayerBody) (fault : Option String)
    (h : (add_player s data fault).status = 201) :
    (add_player s data fault).store.nextPlayerId = s.nextPlayerId + 1 := by
  revert h
  cases fault <;> simp only [add_player] <;> repeat' split
  all_goals intro h
  all_goals first | rfl | simp at h

lemma add_match_nextIds (s : Store) (pid : Nat) (data : MatchBody) (fault : Option String) :
    (add_match_for_player s pid data fault).store.nextPlayerId = s.nextPlayerId ∧
    ((add_match_for_player s pid data fault).store.nextMatchId = s.nextMatchId ∨
     (add_match_for_player s pid data fault).store.nextMatchId = s.nextMatchId + 1) := by
  cases fault <;> simp only [add_match_for_player] <;> repeat' split
  all_goals simp

lemma add_match_201_next (s : Store) (pid : Nat) (data : MatchBody) (fault : Option String)
    (h : (add_match_for_player s pid data fault).status = 201) :
    (add_match_for_player s pid data fault).store.nextMatchId = s.nextMatchId + 1 := by
  revert h
  cases fault <;> simp only [add_match_for_player] <;> repeat' split
  all_goals intro h
  all_goals first | rfl | simp at h

lemma applyOp_nextPlayerId_mono (s : Store) (op : Op) :
    s.nextPlayerId ≤ (applyOp s op).nextPlayerId := by
  cases op with
  | addPlayer data fault =>
    rcases (add_player_nextIds s data fault).1 with h | h <;> simp [applyOp, h]
  | updatePlayer pid data fault => exact le_of_eq (update_player_nextIds s pid data fault).1.symm
  | deletePlayer pid fault => exact le_of_eq (delete_player_nextIds s pid fault).1.symm
  | addMatch pid data fault => exact le_of_eq (add_match_nextIds s pid data fault).1.symm
  | updateMatch mid data fault => exact le_of_eq (update_match_nextIds s mid data fault).1.symm
  | deleteMatch mid fault => exact le_of_eq (delete_match_nextIds s mid fault).1.symm

lemma applyOp_nextMatchId_mono (s : Store) (op : Op) :
    s.nextMatchId ≤ (applyOp s op).nextMatchId := by
  cases op with
  | addPlayer data fault => exact le_of_eq (add_player_nextIds s data fault).2.symm
  | updatePlayer pid data fault => exact le_of_eq (update_player_nextIds s pid data fault).2.symm
  | deletePlayer pid fault => exact le_of_eq (delete_player_nextIds s pid fault).2.symm
  | addMatch pid data fault =>
    rcases (add_match_nextIds s pid data fault).2 with h | h <;> simp [applyOp, h]
  | updateMatch mid data fault => exact le_of_eq (update_match_nextIds s mid data fault).2.symm
  | deleteMatch mid fault => exact le_of_eq (delete_match_nextIds s mid fault).2.symm

lemma assignedPlayerIds_lb (ops : List Op) :
    ∀ s : Store, ∀ i ∈ assignedPlayerIds s ops, s.nextPlayerId ≤ i := by
  induction ops with
  | nil => intro s i hi; simp [assignedPlayerIds] at hi
  | cons op ops ih =>
    intro s i hi
    simp only [assignedPlayerIds, List.mem_append] at hi
    rcases hi with h | h
    · cases op <;> simp [newPlayerIdOf] at h
      omega
    · exact le_trans (applyOp_nextPlayerId_mono s op) (ih (applyOp s op) i h)

lemma assignedMatchIds_lb (ops : List Op) :
    ∀ s : Store, ∀ i ∈ assignedMatchIds s ops, s.nextMatchId ≤ i := by
  induction ops with
  | nil => intro s i hi; simp [assignedMatchIds] at hi
  | cons op ops ih =>
    intro s i hi
    simp only [assignedMatchIds, List.mem_append] at hi
    rcases hi with h | h
    · cases op <;> simp [newMatchIdOf] at h
      omega
    · exact le_trans (applyOp_nextMatchId_mono s op) (ih (applyOp s op) i h)

lemma assignedPlayerIds_pairwise (ops : List Op) :
    ∀ s : Store, (assignedPlayerIds s ops).Pairwise (· < ·) := by
  induction ops with
  | nil => intro s; simp [assignedPlayerIds]
  | cons op ops ih =>
    intro s
    simp only [assignedPlayerIds]
    cases op with
    | addPlayer data fault =>
      simp only [newPlayerIdOf]
      by_cases h201 : (add_player s data fault).status = 201
      · rw [if_pos h201, List.singleton_append, List.pairwise_cons]
        refine ⟨fun j hj => ?_, ih _⟩
        have hlb : (applyOp s (.addPlayer data fault)).nextPlayerId ≤ j :=
          assignedPlayerIds_lb ops _ j hj
        have hnext : (applyOp s (Op.addPlayer data fault)).nextPlayerId = s.nextPlayerId + 1 :=
          add_player_201_next s data fault h201
        omega
      · rw [if_neg h201, List.nil_append]
        exact ih _
    | updatePlayer pid data fault => simpa [newPlayerIdOf] using ih _
    | deletePlayer pid fault => simpa [newPlayerIdOf] using ih _
    | addMatch pid data fault => simpa [newPlayerIdOf] using ih _
    | updateMatch mid data fault => simpa [newPlayerIdOf] using ih _
    | deleteMatch mid fault => simpa [newPlayerIdOf] using ih _

lemma assignedMatchIds_pairwise (ops : List Op) :
    ∀ s : Store, (assignedMatchIds s ops).Pairwise (· < ·) := by
  induction ops with
  | nil => intro s; simp [assignedMatchIds]
  | cons op ops ih =>
    intro s
    simp only [assignedMatchIds]
    cases op with
    | addMatch pid data fault =>
      simp only [newMatchIdOf]
      by_cases h201 : (add_match_for_player s pid data fault).status = 201
      · rw [if_pos h201, List.singleton_append, List.pairwise_cons]
        refine ⟨fun j hj => ?_, ih _⟩
        have hlb : (applyOp s (.addMatch pid data fault)).nextMatchId ≤ j :=
          assignedMatchIds_lb ops _ j hj
        have hnext : (applyOp s (Op.addMatch pid data fault)).nextMatchId = s.nextMatchId + 1 :=
          add_match_201_next s pid data fault h201
        omega
      · rw [if_neg h201, List.nil_append]
        exact ih _
    | addPlayer data fault => simpa [newMatchIdOf] using ih _
    | updatePlayer pid data fault => simpa [newMatchIdOf] using ih _
    | deletePlayer pid fault => simpa [newMatchIdOf] using ih _
    | updateMatch mid data fault => simpa [newMatchIdOf] using ih _
    | deleteMatch mid fault => simpa [newMatchIdOf] using ih _

lemma countP_ne_zero_of_any {α : Type} (l : List α) (c : α → Bool)
    (h : l.any c = true) : ¬ l.countP c = 0 := by
  intro h0
  obtain ⟨x, hx, hcx⟩ := List.any_eq_true.mp h
  exact List.countP_eq_zero.mp h0 x hx hcx

lemma countP_eq_zero_of_any_false {α : Type} (l : List α) (c : α → Bool)
    (h : l.any c = false) : l.countP c = 0 := by
  rw [List.countP_eq_zero]
  intro a ha hca
  rw [List.any_eq_false] at h
  exact h a ha hca

lemma map_update_no_match {α : Type} (l : List α) (c : α → Bool) (g : α → α)
    (h : l.any c = false) :
    l.map (fun a => if c a then g a else a) = l := by
  induction l with
  | nil => rfl
  | cons x xs ih =>
    simp only [List.any_cons, Bool.or_eq_false_iff] at h
    simp [h.1, ih h.2]

lemma find?_map_update_isSome {α : Type} (l : List α) (c : α → Bool) (g : α → α)
    (hg : ∀ a, c (g a) = c a) (h : l.any c = true) :
    ((l.map (fun a => if c a then g a else a)).find? c).isSome = true := by
  induction l with
  | nil => simp at h
  | cons x xs ih =>
    simp only [List.any_cons, Bool.or_eq_true] at h
    by_cases hx : c x = true
    · simp only [List.map_cons]
      rw [if_pos hx, List.find?_cons_of_pos _ (by rw [hg]; exact hx)]
      simp
    · simp only [Bool.not_eq_true] at hx
      rcases h with h | h
      · rw [hx] at h; exact absurd h (by simp)
      · simp only [List.map_cons]
        rw [if_neg (by simp [hx]), List.find?_cons_of_neg _ (by simp [hx])]
        exact ih h

lemma filter_ne_of_any_false {α : Type} (l : List α) (c : α → Bool)
    (h : l.any c = false) :
    l.filter (fun a => !(c a)) = l := by
  induction l with
  | nil => rfl
  | cons x xs ih =>
    simp only [List.any_cons, Bool.or_eq_false_iff] at h
    simp [List.filter_cons, h.1, ih h.2]

lemma update_player_404 (s : Store) (pid : Nat) (data : PlayerBody)
    (habs : s.players.any (fun p => p.id == pid) = false) :
    update_player s pid data none = ⟨s, 404, .msg "Player not found", 1, 1⟩ := by
  simp only [update_player]
  rw [if_neg (fun hc => by simp [habs] at hc)]
  rw [if_neg (by simp [habs])]
  have hm : s.players.map (fun p => if p.id == pid then setPlayerFields data p else p) =
      s.players :=
    map_update_no_match s.players (fun p => p.id == pid) (setPlayerFields data) habs
  rw [hm]

lemma delete_player_404 (s : Store) (pid : Nat)
    (habs : s.players.any (fun p => p.id == pid) = false) :
    delete_player s pid none = ⟨s, 404, .msg "Player not found", 1, 1⟩ := by
  simp only [delete_player]
  rw [if_pos (countP_eq_zero_of_any_false s.players _ habs)]
  have hf : s.players.filter (fun p => p.id != pid) = s.players :=
    filter_ne_of_any_false s.players (fun p => p.id == pid) habs
  rw [hf]

lemma update_match_404 (s : Store) (mid : Nat) (data : MatchBody)
    (habs : s.«matches».any (fun m => m.id == mid) = false) :
    update_match s mid data none = ⟨s, 404, .msg "Match not found", 1, 1⟩ := by
  simp only [update_match]
  rw [if_neg (by simp [habs])]
  have hm : s.«matches».map (fun m => if m.id == mid then setMatchFields data m else m) =
      s.«matches» :=
    map_update_no_match s.«matches» (fun m => m.id == mid) (setMatchFields data) habs
  rw [hm]

lemma delete_match_404 (s : Store) (mid : Nat)
    (habs : s.«matches».any (fun m => m.id == mid) = false) :
    delete_match s mid none = ⟨s, 404, .msg "Match not found", 1, 1⟩ := by
  simp only [delete_match]
  rw [if_pos (countP_eq_zero_of_any_false s.«matches» _ habs)]
  have hf : s.«matches».filter (fun m => m.id != mid) = s.«matches» :=
    filter_ne_of_any_false s.«matches» (fun m => m.id == mid) habs
  rw [hf]

lemma update_player_200 (s : Store) (pid : Nat) (data : PlayerBody)
    (hp : s.players.any (fun p => p.id == pid) = true)
    (hname : pyGet data.name ≠ .null) :
    (update_player s pid data none).status = 200 := by
  simp only [update_player]
  rw [if_neg (fun hc => hname hc.2)]
  rw [if_pos hp]
  split
  · rfl
  · rename_i hnone
    exact absurd hnone (Option.isSome_iff_ne_none.mp
      (find?_map_update_isSome s.players (fun p => p.id == pid) (setPlayerFields data)
        (fun a => rfl) hp))

lemma update_match_200 (s : Store) (mid : Nat) (data : MatchBody)
    (hm : s.«matches».any (fun m => m.id == mid) = true) :
    (update_match s mid data none).status = 200 := by
  simp only [update_match]
  rw [if_pos hm]
  split
  · rfl
  · rename_i hnone
    exact absurd hnone (Option.isSome_iff_ne_none.mp
      (find?_map_update_isSome s.«matches» (fun m => m.id == mid) (setMatchFields data)
        (fun a => rfl) hm))

lemma delete_player_204 (s : Store) (pid : Nat)
    (hp : s.players.any (fun p => p.id == pid) = true) :
    delete_player s pid none =
      ⟨{ s with players := s.players.filter (fun p => p.id != pid) }, 204,
        .msg "Player deleted successfully", 1, 1⟩ := by
  simp only [delete_player]
  rw [if_neg (countP_ne_zero_of_any s.players _ hp)]

lemma delete_match_204 (s : Store) (mid : Nat)
    (hm : s.«matches».any (fun m => m.id == mid) = true) :
    delete_match s mid none =
      ⟨{ s with «matches» := s.«matches».filter (fun m => m.id != mid) }, 204,
        .msg "Match deleted successfully", 1, 1⟩ := by
  simp only [delete_match]
  rw [if_neg (countP_ne_zero_of_any s.«matches» _ hm)]

lemma update_match_store_none (s : Store) (mid : Nat) (data : MatchBody) :
    (update_match s mid data none).store =
      { s with «matches» :=
          s.«matches».map (fun m => if m.id == mid then setMatchFields data m else m) } := by
  simp only [update_match]
  repeat' split
  all_goals rfl

/-! ### Concrete fixtures -/

/-- The player of the spec's end-to-end scenario. -/
def rahul : PlayerRow := ⟨1, .str "Rahul", .null, .null, .null⟩

/-- A match owned by player 1. -/
def rahulMatch : MatchRow :=
  ⟨1, 1, .bool false, .int 50, .int 40, .int 0, .real 0, .int 0, .int 0, .int 0, .int 0⟩

/-- A store holding one player (id 1) who owns one match (id 1). -/
def storeOneMatch : Store := ⟨[rahul], [rahulMatch], 2, 2⟩

/-- A store holding one player (id 1) and no matches. -/
def storeOnePlayer : Store := ⟨[rahul], [], 2, 1⟩

/-- A player-create body carrying only a name. -/
def rahulBody : PlayerBody := ⟨some (.str "Rahul"), none, none, none⟩

/-! ### Claims -/

/-- **C1.** The claim says a successful `DELETE /players/{id}` removes the
player row and all of its match rows.  The code contradicts it: the sqlite
connection never enables `PRAGMA foreign_keys`, so the schema's
`ON DELETE CASCADE` is not enforced and the match rows survive.  At the
failing input (player 1 owning match 1), the delete succeeds with 204 and
empties the players table, yet the match row with `player_id = 1` is still
in the store. -/
theorem c1_delete_player_leaves_orphan_match :
    (delete_player storeOneMatch 1 none).status = 204 ∧
    (delete_player storeOneMatch 1 none).store.players = [] ∧
    (delete_player storeOneMatch 1 none).store.«matches» = [rahulMatch] ∧
    rahulMatch.player_id = 1 := by
  refine ⟨rfl, rfl, rfl, rfl⟩

/-- **C2.** A `POST /players/{id}/matches` for a player id with no player row
returns 404 with a message body and leaves the store untouched — *whatever*
fault the INSERT statement would have raised, because the existence check
runs before the INSERT (so no match row is ever inserted and no 500 can be
produced on this path). -/
theorem c2_add_match_missing_player_404 (s : Store) (pid : Nat) (data : MatchBody)
    (fault : Option String)
    (habs : s.players.any (fun p => p.id == pid) = false) :
    add_match_for_player s pid data fault = ⟨s, 404, .msg "Player not found", 1, 1⟩ := by
  simp only [add_match_for_player, habs]
  simp

theorem c2_add_match_missing_player_404_witness :
    Store.init.players.any (fun p => p.id == 1) = false ∧
    add_match_for_player Store.init 1 emptyMatchBody none =
      ⟨Store.init, 404, .msg "Player not found", 1, 1⟩ :=
  ⟨by decide, c2_add_match_missing_player_404 Store.init 1 emptyMatchBody none (by decide)⟩

/-- **C10.** For an existing player, a `PUT /players/{id}` whose body omits
`name` (or sets it to null) binds `None` into the NOT NULL `name` column:
the UPDATE raises, the handler answers 500 with an `{error}` body (not 400),
and the rollback leaves the store unchanged. -/
theorem c10_update_player_null_name_500 (s : Store) (pid : Nat) (data : PlayerBody)
    (hp : s.players.any (fun p => p.id == pid) = true)
    (hname : data.name = none ∨ data.name = some JVal.null) :
    update_player s pid data none =
      ⟨s, 500, .err "NOT NULL constraint failed: players.name", 1, 1⟩ := by
  have hnull : pyGet data.name = .null := by
    rcases hname with h | h <;> simp [pyGet, h]
  simp only [update_player]
  rw [if_pos ⟨hp, hnull⟩]

/-- **C3.** Update and delete of players and matches run the mutating
statement unconditionally and decide existence from the affected-row count:
with no matching row the response is 404 with a message body and the store
is completely unchanged (both tables), and — because the statement is
executed even then — an injected statement fault still surfaces as 500
rather than 404; with a matching row the documented success status is
returned (200 for updates, 204 for deletes). -/
theorem c3_post_hoc_row_count (s : Store) (pid mid : Nat) (pdata : PlayerBody)
    (mdata : MatchBody) :
    (s.players.any (fun p => p.id == pid) = false →
        update_player s pid pdata none = ⟨s, 404, .msg "Player not found", 1, 1⟩ ∧
        delete_player s pid none = ⟨s, 404, .msg "Player not found", 1, 1⟩ ∧
        ∀ e : String, (update_player s pid pdata (some e)).status = 500 ∧
          (delete_player s pid (some e)).status = 500) ∧
    (s.players.any (fun p => p.id == pid) = true →
        (pyGet pdata.name ≠ .null → (update_player s pid pdata none).status = 200) ∧
        (delete_player s pid none).status = 204) ∧
    (s.«matches».any (fun m => m.id == mid) = false →
        update_match s mid mdata none = ⟨s, 404, .msg "Match not found", 1, 1⟩ ∧
        delete_match s mid none = ⟨s, 404, .msg "Match not found", 1, 1⟩ ∧
        ∀ e : String, (update_match s mid mdata (some e)).status = 500 ∧
          (delete_match s mid (some e)).status = 500) ∧
    (s.«matches».any (fun m => m.id == mid) = true →
        (update_match s mid mdata none).status = 200 ∧
        (delete_match s mid none).status = 204) := by
  refine ⟨fun habs => ⟨update_player_404 s pid pdata habs, delete_player_404 s pid habs,
      fun e => ⟨rfl, rfl⟩⟩,
    fun hp => ⟨fun hname => update_player_200 s pid pdata hp hname, ?_⟩,
    fun habs => ⟨update_match_404 s mid mdata habs, delete_match_404 s mid habs,
      fun e => ⟨rfl, rfl⟩⟩,
    fun hm => ⟨update_match_200 s mid mdata hm, ?_⟩⟩
  · rw [delete_player_204 s pid hp]
  · rw [delete_match_204 s mid hm]

theorem c3_post_hoc_row_count_witness :
    update_player storeOneMatch 5 rahulBody none =
      ⟨storeOneMatch, 404, .msg "Player not found", 1, 1⟩ ∧
    (update_player storeOneMatch 1 rahulBody none).status = 200 ∧
    (delete_player storeOneMatch 1 none).status = 204 ∧
    update_match storeOneMatch 7 emptyMatchBody none =
      ⟨storeOneMatch, 404, .msg "Match not found", 1, 1⟩ ∧
    (update_match storeOneMatch 1 emptyMatchBody none).status = 200 ∧
    (delete_match storeOneMatch 1 none).status = 204 :=
  ⟨((c3_post_hoc_row_count storeOneMatch 5 7 rahulBody emptyMatchBody).1 (by decide)).1,
   ((c3_post_hoc_row_count storeOneMatch 1 1 rahulBody emptyMatchBody).2.1 (by decide)).1
     (by decide),
   ((c3_post_hoc_row_count storeOneMatch 1 1 rahulBody emptyMatchBody).2.1 (by decide)).2,
   ((c3_post_hoc_row_count storeOneMatch 1 7 rahulBody emptyMatchBody).2.2.1 (by decide)).1,
   ((c3_post_hoc_row_count storeOneMatch 1 1 rahulBody emptyMatchBody).2.2.2 (by decide)).1,
   ((c3_post_hoc_row_count storeOneMatch 1 1 rahulBody emptyMatchBody).2.2.2 (by decide)).2⟩

/-- **C4.** Creating a match with an all-absent body stores the documented
defaults (`did_bat=false`, the seven counters `0`, `overs=0.0`), while
updating a match with an all-absent body overwrites every one of the nine
mutable columns with NULL instead of preserving the old values — the
create/update defaulting asymmetry. -/
theorem c4_defaulting_asymmetry (s : Store) (pid mid : Nat)
    (hp : s.players.any (fun p => p.id == pid) = true) :
    (add_match_for_player s pid emptyMatchBody none).store.«matches» =
      s.«matches» ++ [⟨s.nextMatchId, pid, .bool false, .int 0, .int 0, .int 0, .real 0,
        .int 0, .int 0, .int 0, .int 0⟩] ∧
    (update_match s mid emptyMatchBody none).store.«matches» =
      s.«matches».map (fun m =>
        if m.id == mid then
          ({ m with did_bat := JVal.null, runs := JVal.null, balls := JVal.null,
                    wickets := JVal.null, overs := JVal.null, conceded := JVal.null,
                    catches := JVal.null, stumpings := JVal.null,
                    run_outs := JVal.null } : MatchRow)
        else m) := by
  constructor
  · simp only [add_match_for_player, hp]
    simp [pyGetD, emptyMatchBody]
  · rw [update_match_store_none]
    rfl

theorem c4_defaulting_asymmetry_witness :
    storeOneMatch.players.any (fun p => p.id == 1) = true ∧
    (add_match_for_player storeOneMatch 1 emptyMatchBody none).store.«matches» =
      [rahulMatch, ⟨2, 1, .bool false, .int 0, .int 0, .int 0, .real 0,
        .int 0, .int 0, .int 0, .int 0⟩] ∧
    (update_match storeOneMatch 1 emptyMatchBody none).store.«matches» =
      [⟨1, 1, JVal.null, JVal.null, JVal.null, JVal.null, JVal.null, JVal.null,
        JVal.null, JVal.null, JVal.null⟩] := by
  have h := c4_defaulting_asymmetry storeOneMatch 1 1 (by decide)
  exact ⟨by decide, by rw [h.1]; decide, by rw [h.2]; decide⟩

/-- **C5.** A successful `DELETE /players/{id}` or `DELETE /matches/{id}`
answers 204, and the 204 response is emitted with an empty body on the wire
(the JSON message the handler passes to `jsonify` is dropped by the
framework's 204 handling). -/
theorem c5_delete_204_empty_body (s : Store) (pid mid : Nat)
    (hp : s.players.any (fun p => p.id == pid) = true)
    (hm : s.«matches».any (fun m => m.id == mid) = true) :
    (delete_player s pid none).status = 204 ∧
    wireBody (delete_player s pid none).status (delete_player s pid none).body = .empty ∧
    (delete_match s mid none).status = 204 ∧
    wireBody (delete_match s mid none).status (delete_match s mid none).body = .empty := by
  rw [delete_player_204 s pid hp, delete_match_204 s mid hm]
  refine ⟨rfl, ?_, rfl, ?_⟩ <;> simp [wireBody]

theorem c5_delete_204_empty_body_witness :
    (delete_player storeOneMatch 1 none).status = 204 ∧
    wireBody (delete_player storeOneMatch 1 none).status
      (delete_player storeOneMatch 1 none).body = .empty ∧
    (delete_match storeOneMatch 1 none).status = 204 ∧
    wireBody (delete_match storeOneMatch 1 none).status
      (delete_match storeOneMatch 1 none).body = .empty :=
  c5_delete_204_empty_body storeOneMatch 1 1 (by decide) (by decide)

/-- **C6** as stated is false: on the success path of `add_player` the
handler re-reads the created row over a second connection obtained by a bare
`get_db_connection()` call (line 72) and never closes it — at this concrete
input the request opens 2 connections and closes only 1 before responding. -/
theorem c6_counterexample_connection_leak :
    (add_player Store.init rahulBody none).status = 201 ∧
    (add_player Store.init rahulBody none).opened = 2 ∧
    (add_player Store.init rahulBody none).closed = 1 := by
  refine ⟨rfl, rfl, rfl⟩

/-- **C6 amended.** The primary connection opened at the start of a handler
is closed on every exit path, and the four update/delete handlers close
every connection they open; but the two create handlers (`add_player`,
`add_match_for_player`) open a second connection on their 201 success path
to re-read the new row, and that connection is never closed. -/
theorem c6_amended_connection_release (s : Store) (pid mid : Nat) (pdata : PlayerBody)
    (mdata : MatchBody) (fault : Option String) :
    (update_player s pid pdata fault).closed = (update_player s pid pdata fault).opened ∧
    (delete_player s pid fault).closed = (delete_player s pid fault).opened ∧
    (update_match s mid mdata fault).closed = (update_match s mid mdata fault).opened ∧
    (delete_match s mid fault).closed = (delete_match s mid fault).opened ∧
    (add_player s pdata fault).closed = min (add_player s pdata fault).opened 1 ∧
    (add_player s pdata fault).opened =
      (if (add_player s pdata fault).status = 201 then 2 else (add_player s pdata fault).closed) ∧
    (add_match_for_player s pid mdata fault).closed =
      min (add_match_for_player s pid mdata fault).opened 1 ∧
    (add_match_for_player s pid mdata fault).opened =
      (if (add_match_for_player s pid mdata fault).status = 201 then 2
       else (add_match_for_player s pid mdata fault).closed) := by
  refine ⟨?_, ?_, ?_, ?_, ?_, ?_, ?_, ?_⟩
  · cases fault <;> simp only [update_player]
    all_goals repeat' split
    all_goals rfl
  · cases fault <;> simp only [delete_player]
    all_goals repeat' split
    all_goals rfl
  · cases fault <;> simp only [update_match]
    all_goals repeat' split
    all_goals rfl
  · cases fault <;> simp only [delete_match]
    all_goals repeat' split
    all_goals rfl
  · cases fault <;> simp only [add_player] <;> repeat' split
    all_goals rfl
  · cases fault <;> simp only [add_player] <;> repeat' split
    all_goals simp_all
  · cases fault <;> simp only [add_match_for_player] <;> repeat' split
    all_goals rfl
  · cases fault <;> simp only [add_match_for_player] <;> repeat' split
    all_goals simp_all

/-- **C7.** If the mutating SQL statement of any of the six write handlers
raises a storage error, the unit of work is rolled back (the store is
exactly what it was before the request), the response is 500 with an
`{error: message}` body, and the single connection is closed; the statement
runs exactly once (the handlers are straight-line, so no retry exists). -/
theorem c7_storage_error_rollback (s : Store) (pid mid : Nat) (pdata : PlayerBody)
    (mdata : MatchBody) (e : String)
    (hname : truthy (pyGet pdata.name) = true)
    (hp : s.players.any (fun p => p.id == pid) = true) :
    add_player s pdata (some e) = ⟨s, 500, .err e, 1, 1⟩ ∧
    update_player s pid pdata (some e) = ⟨s, 500, .err e, 1, 1⟩ ∧
    delete_player s pid (some e) = ⟨s, 500, .err e, 1, 1⟩ ∧
    add_match_for_player s pid mdata (some e) = ⟨s, 500, .err e, 1, 1⟩ ∧
    update_match s mid mdata (some e) = ⟨s, 500, .err e, 1, 1⟩ ∧
    delete_match s mid (some e) = ⟨s, 500, .err e, 1, 1⟩ := by
  refine ⟨?_, rfl, rfl, ?_, rfl, rfl⟩
  · simp only [add_player]
    rw [if_pos hname]
  · simp only [add_match_for_player]
    rw [if_pos hp]

theorem c7_storage_error_rollback_witness :
    truthy (pyGet rahulBody.name) = true ∧
    storeOneMatch.players.any (fun p => p.id == 1) = true ∧
    add_player storeOneMatch rahulBody (some "disk I/O error") =
      ⟨storeOneMatch, 500, .err "disk I/O error", 1, 1⟩ ∧
    delete_player storeOneMatch 1 (some "disk I/O error") =
      ⟨storeOneMatch, 500, .err "disk I/O error", 1, 1⟩ :=
  have h := c7_storage_error_rollback storeOneMatch 1 1 rahulBody emptyMatchBody
    "disk I/O error" (by decide) (by decide)
  ⟨by decide, by decide, h.1, h.2.2.1⟩

/-- **C8.** Within one running store instance (starting from the schema
`init_db` creates), every player id and every match id handed out by a
successful create is strictly greater than every id previously handed out
in its table, whatever interleaving of creates, updates, deletes and
faulting requests occurred in between — so an id is never reused, in
particular not after the row bearing it is deleted. -/
theorem c8_ids_monotonic_never_reused (ops : List Op) :
    (assignedPlayerIds Store.init ops).Pairwise (· < ·) ∧
    (assignedMatchIds Store.init ops).Pairwise (· < ·) :=
  ⟨assignedPlayerIds_pairwise ops Store.init, assignedMatchIds_pairwise ops Store.init⟩

/-- **C9.** `PUT /matches/{id}` never changes any match's `id` or
`player_id` (the SET clause covers only the nine stat columns), leaves the
players table and the id counters untouched, and leaves every match row
whose id differs from the requested one entirely unchanged — this holds on
every path (success, 404 and storage error), so the two fields keep the
values given at creation. -/
theorem c9_update_match_frame (s : Store) (mid : Nat) (data : MatchBody)
    (fault : Option String) :
    (update_match s mid data fault).store.players = s.players ∧
    (update_match s mid data fault).store.«matches».map (fun m => (m.id, m.player_id)) =
      s.«matches».map (fun m => (m.id, m.player_id)) ∧
    (update_match s mid data fault).store.nextPlayerId = s.nextPlayerId ∧
    (update_match s mid data fault).store.nextMatchId = s.nextMatchId ∧
    ∀ m ∈ s.«matches», (m.id == mid) = false →
      m ∈ (update_match s mid data fault).store.«matches» := by
  cases fault with
  | some e => exact ⟨rfl, rfl, rfl, rfl, fun m hm _ => hm⟩
  | none =>
    rw [update_match_store_none]
    refine ⟨rfl, ?_, rfl, rfl, ?_⟩
    · rw [List.map_map]
      refine List.map_congr_left (fun m _ => ?_)
      simp only [Function.comp]
      split <;> rfl
    · intro m hm hne
      have : (if m.id == mid then setMatchFields data m else m) = m := by rw [hne]; simp
      exact this ▸ List.mem_map_of_mem _ hm

theorem c9_update_match_frame_witness :
    rahulMatch ∈ storeOneMatch.«matches» ∧
    ((rahulMatch.id == 7) = false) ∧
    (update_match storeOneMatch 7 emptyMatchBody none).store.players =
      storeOneMatch.players ∧
    rahulMatch ∈ (update_match storeOneMatch 7 emptyMatchBody none).store.«matches» :=
  have h := c9_update_match_frame storeOneMatch 7 emptyMatchBody none
  ⟨by decide, by decide, h.1,
    h.2.2.2.2 rahulMatch (by decide) (by decide)⟩

theorem c10_update_player_null_name_500_witness :
    storeOnePlayer.players.any (fun p => p.id == 1) = true ∧
    ((⟨none, none, none, none⟩ : PlayerBody).name = none ∨
      (⟨none, none, none, none⟩ : PlayerBody).name = some JVal.null) ∧
    update_player storeOnePlayer 1 ⟨none, none, none, none⟩ none =
      ⟨storeOnePlayer, 500, .err "NOT NULL constraint failed: players.name", 1, 1⟩ :=
  ⟨by decide, Or.inl rfl,
    c10_update_player_null_name_500 storeOnePlayer 1 ⟨none, none, none, none⟩
      (by decide) (Or.inl rfl)⟩

end CBZ
